import Mathlib

/-!
Verification of the HyperMicro motor-controller and scanner stack
(`motor_controller.py`, `simple_scanner.py`) against its specification.

The Python code is shallowly embedded: byte buffers become `List Nat`,
machine integers become `Int` with explicit two's-complement decoding,
wall-clock instants become `ℚ`, and the blocking waits become folds over
the sequence of events (frames, polls) observed before the deadline.
-/

namespace HyperMicro

/-! ## Command codec (`struct.unpack` little-endian decoders) -/

/-- Little-endian unsigned 32-bit value from four bytes. -/
def u32le (b0 b1 b2 b3 : Nat) : Nat :=
  b0 + 256 * b1 + 65536 * b2 + 16777216 * b3

/-- Little-endian signed 32-bit value (two's complement), as `struct.unpack "<i"`. -/
def i32le (b0 b1 b2 b3 : Nat) : Int :=
  let n := u32le b0 b1 b2 b3
  if n < 2147483648 then (n : Int) else (n : Int) - 4294967296

/-- Little-endian unsigned 16-bit value from two bytes. -/
def u16le (b0 b1 : Nat) : Nat := b0 + 256 * b1

/-- Little-endian signed 16-bit value, as `struct.unpack "<h"`. -/
def i16le (b0 b1 : Nat) : Int :=
  let n := u16le b0 b1
  if n < 32768 then (n : Int) else (n : Int) - 65536

/-- Read byte `i` of the receive buffer. The transport pre-allocates a fixed
buffer, so reads past the frame see the (zero-modelled) residual contents. -/
def byteAt (buf : List Nat) (i : Nat) : Nat := buf.getD i 0

/-! ## Position & status cache (`DeviceState`) -/

/-- The cached device state held by `ImprovedMotorController`:
`current_position`, `current_speed`, `is_running`, `current_mode`. -/
structure DeviceCache where
  currentPosition : Int × Int
  currentSpeed : Int × Int
  isRunning : Bool × Bool
  currentMode : Nat
deriving Repr, DecidableEq

/-- The zero-initialised cache set up in `__init__`. -/
def zeroCache : DeviceCache := ⟨(0, 0), (0, 0), (false, false), 0⟩

/-- The dictionary shape returned by `_send_command`.  Inspection of every
return site shows `responseID` is always `RESP_OK = 1`; `derived` models the
`'derived': True` key of the status-only timeout path and `movementStarted`
the `'movement_started': True` key of the movement path. -/
structure SendOutcome where
  responseID : Nat
  value : Int
  derived : Bool
  movementStarted : Bool
deriving Repr, DecidableEq

/-! ## Command/response engine (`_send_command`) -/

/-- The status parse inside `_send_command` (`motor_controller.py` lines
317-334): reads the Status/Position fields out of the receive buffer and
overwrites the cache.  The buffer is pre-allocated, so the parse does not
fail and the cache assignment always executes. -/
def statusParse (buf : List Nat) : DeviceCache :=
  let xPos := i32le (byteAt buf 2) (byteAt buf 3) (byteAt buf 4) (byteAt buf 5)
  let yPos := i32le (byteAt buf 6) (byteAt buf 7) (byteAt buf 8) (byteAt buf 9)
  let xSpeed := i16le (byteAt buf 10) (byteAt buf 11)
  let ySpeed := i16le (byteAt buf 12) (byteAt buf 13)
  let xRunning := byteAt buf 14
  let yRunning := byteAt buf 15
  let mode := byteAt buf 16
  { currentPosition := (xPos, yPos)
    currentSpeed := (xSpeed, ySpeed)
    isRunning := (decide (0 < xRunning), decide (0 < yRunning))
    currentMode := mode }

/-- One iteration of the non-movement response wait in `_send_command`
(lines 296-360) when a frame is available.  Returns the updated cache,
whether this frame counted for `got_status_only`, and the outcome if the
code returned here.  Note that in the source the `try:` block holding the
status parse sits at the same indentation level as the dispatch on
`resp_id`, so it executes for every frame that did not already return —
including Error, Ping and non-matching Ok frames. -/
def processFrame (commandId : Nat) (cache : DeviceCache) (buf : List Nat) :
    DeviceCache × Bool × Option SendOutcome :=
  let respId := byteAt buf 0
  -- RESP_OK = 1, RESP_ERROR = 2, RESP_PING = 5
  if respId = 1 ∨ respId = 2 ∨ respId = 5 then
    let v := i32le (byteAt buf 1) (byteAt buf 2) (byteAt buf 3) (byteAt buf 4)
    if respId = 1 ∧ v = (commandId : Int) then
      (cache, false, some ⟨1, v, false, false⟩)
    else
      -- Error frames are only logged; the dedented status parse then runs.
      (statusParse buf, false, none)
  else
    -- RESP_STATUS = 3, RESP_POSITION = 4 set got_status_only; the matching
    -- cmd_echo branch (line 352) has no return statement, so even a
    -- correlated status frame falls through and the wait continues.
    (statusParse buf, (respId = 3 ∨ respId = 4 : Bool), none)

/-- The non-movement response wait loop of one attempt, folded over the
frames that arrive before the timeout, in arrival order. -/
def waitFrames (commandId : Nat) :
    DeviceCache → Bool → List (List Nat) → DeviceCache × Bool × Option SendOutcome
  | cache, gotStatus, [] => (cache, gotStatus, none)
  | cache, gotStatus, buf :: rest =>
    match processFrame commandId cache buf with
    | (cache', g, some o) => (cache', gotStatus || g, some o)
    | (cache', g, none) => waitFrames commandId cache' (gotStatus || g) rest

/-- The retry loop of `_send_command` for non-movement commands (lines
254-380).  One entry of the attempts list holds the frames arriving during
that attempt's wait window.  After a wait that saw only status frames and
with `force_retry` unset, the command is a derived success (lines 365-368);
otherwise the next attempt runs, and exhausting all attempts yields `none`
(line 380).  Also returns the number of frames written to the transport. -/
def sendAttempts (commandId : Nat) (forceRetry : Bool) :
    DeviceCache → List (List (List Nat)) → DeviceCache × Nat × Option SendOutcome
  | cache, [] => (cache, 0, none)
  | cache, frames :: rest =>
    match waitFrames commandId cache false frames with
    | (cache', _, some o) => (cache', 1, some o)
    | (cache', gotStatus, none) =>
      if gotStatus && !forceRetry then
        (cache', 1, some ⟨1, (commandId : Int), true, false⟩)
      else
        let r := sendAttempts commandId forceRetry cache' rest
        (r.1, r.2.1 + 1, r.2.2)

/-- The movement-command branch of `_send_command` (lines 269-288): any frame
arriving within the short wait makes the attempt succeed with an
`RESP_OK`/`movement_started` outcome; a silent window re-sends.  One entry of
the list is `true` when some frame arrived during that attempt's window. -/
def sendMoveAttempts (commandId : Nat) : List Bool → Nat × Option SendOutcome
  | [] => (0, none)
  | gotFrame :: rest =>
    if gotFrame then (1, some ⟨1, (commandId : Int), false, true⟩)
    else
      let r := sendMoveAttempts commandId rest
      (r.1 + 1, r.2)

/-! ## Controller state and public methods -/

/-- Environment of one `_send_command` call: for each retry attempt, the
frames that arrive during its wait window (for movement commands only
arrival matters, so an attempt succeeds iff its frame list is nonempty). -/
abbrev CallEnv : Type := List (List (List Nat))

/-- An outbound wire frame as packed by `struct.pack "<BBii"`:
command id, motor select, param1, param2. -/
structure TxFrame where
  commandId : Nat
  motorSelect : Nat
  param1 : Int
  param2 : Int
deriving Repr, DecidableEq

/-- The controller object state: connection flags, the cached `DeviceState`,
the motor-enable flag, the log of frames written to the transport, plus the
oracle queues feeding the embedded waits (`envs` is popped once per
`_send_command` call, `waitResults` once per `_wait_for_segment_completion`
call, whose internal logic is modelled in detail separately). -/
structure CState where
  connected : Bool
  hasTransfer : Bool
  cache : DeviceCache
  motorsEnabled : Bool
  written : List TxFrame
  envs : List CallEnv
  waitResults : List Bool
deriving Repr, DecidableEq

/-- `_send_command` (lines 227-380).  When not connected or the transfer
object is absent it returns `none` immediately, before anything is written
(lines 229-231).  Otherwise the movement or non-movement retry loop runs on
the next queued call environment, writing one frame per attempt.
`CMD_MOVE = 1`, `CMD_MOVETO = 2`. -/
def sendCommand (st : CState) (commandId motorSelect : Nat) (param1 param2 : Int)
    (retryCount : Nat) (forceRetry : Bool) : CState × Option SendOutcome :=
  if !(st.connected && st.hasTransfer) then (st, none)
  else
    let env := st.envs.headD []
    let st1 : CState := { st with envs := st.envs.tail }
    let attempts := (List.range retryCount).map (fun i => env.getD i [])
    let frame : TxFrame := ⟨commandId, motorSelect, param1, param2⟩
    if commandId = 1 ∨ commandId = 2 then
      let r := sendMoveAttempts commandId (attempts.map (fun f => !f.isEmpty))
      ({ st1 with written := st1.written ++ List.replicate r.1 frame }, r.2)
    else
      let r := sendAttempts commandId forceRetry st1.cache attempts
      ({ st1 with cache := r.1,
                  written := st1.written ++ List.replicate r.2.1 frame }, r.2.2)

/-- The simplified status dictionary built by `get_status`. -/
structure StatusInfo where
  position : Int × Int
  speed : Int × Int
  running : Bool × Bool
  mode : Nat
deriving Repr, DecidableEq

/-- `get_status` (lines 479-498).  `_send_command` only ever returns
dictionaries with `responseID = RESP_OK`, so the Status/Position branch is
dead; it is kept, with the dictionary `.get` defaults (0), for fidelity.
Otherwise the cached values are returned. -/
def getStatus (st : CState) : CState × StatusInfo :=
  let r := sendCommand st 8 0 0 0 3 false
  match r.2 with
  | some o =>
    if o.responseID = 3 ∨ o.responseID = 4 then
      (r.1, ⟨(0, 0), (0, 0), (false, false), 0⟩)
    else
      (r.1, ⟨r.1.cache.currentPosition, r.1.cache.currentSpeed,
             r.1.cache.isRunning, r.1.cache.currentMode⟩)
  | none =>
    (r.1, ⟨r.1.cache.currentPosition, r.1.cache.currentSpeed,
           r.1.cache.isRunning, r.1.cache.currentMode⟩)

/-- `get_position` (lines 500-503). -/
def getPosition (st : CState) : CState × (Int × Int) :=
  let r := getStatus st
  (r.1, r.2.position)

/-- `enable_motors` (lines 749-759): `CMD_ENABLE = 10`, `MOTOR_BOTH`. -/
def enableMotors (st : CState) : CState × Bool :=
  match sendCommand st 10 3 0 0 3 false with
  | (st', some _) => ({ st' with motorsEnabled := true }, true)
  | (st', none) => (st', false)

/-- `disable_motors` (lines 761-771): `CMD_DISABLE = 9`. -/
def disableMotors (st : CState) : CState × Bool :=
  match sendCommand st 9 3 0 0 3 false with
  | (st', some _) => ({ st' with motorsEnabled := false }, true)
  | (st', none) => (st', false)

/-- `set_speed` (lines 677-697): `CMD_SPEED = 3`. -/
def setSpeed (st : CState) (xSpeed ySpeed : Int) : CState × Bool :=
  let r := sendCommand st 3 3 xSpeed ySpeed 3 false
  (r.1, r.2.isSome)

/-- `set_acceleration` (lines 699-719): `CMD_ACCEL = 4`. -/
def setAcceleration (st : CState) (xAccel yAccel : Int) : CState × Bool :=
  let r := sendCommand st 4 3 xAccel yAccel 3 false
  (r.1, r.2.isSome)

/-- `home` (lines 721-728): `CMD_HOME = 5`. -/
def home (st : CState) : CState × Bool :=
  let r := sendCommand st 5 3 0 0 3 false
  (r.1, r.2.isSome)

/-- `stop` (lines 730-737): `CMD_STOP = 6`. -/
def stop (st : CState) : CState × Bool :=
  let r := sendCommand st 6 3 0 0 3 false
  (r.1, r.2.isSome)

/-- `set_mode` (lines 739-747): `CMD_MODE = 7`. -/
def setMode (st : CState) (mode : Int) : CState × Bool :=
  let r := sendCommand st 7 0 mode 0 3 false
  (r.1, r.2.isSome)

/-! ## Motion planner (`move_to` segmentation) -/

/-- Segment length choice (lines 530-535): 20 steps/segment when both axes
are displaced (diagonal), 30 for single-axis moves. -/
def segmentSizeFor (xDist yDist : Nat) : Nat :=
  if 0 < xDist ∧ 0 < yDist then 20 else 30

/-- Segment count (line 537): `max(2, int(total_dist / segment_size))` with
`total_dist = sqrt(x_dist² + y_dist²)`.  Python's `int()` truncates, and
`⌊√n / s⌋ = ⌊√n⌋ / s` for a positive integer `s`, so natural square root
and division compute it exactly. -/
def segmentCount (xDist yDist : Nat) : Nat :=
  max 2 (Nat.sqrt (xDist ^ 2 + yDist ^ 2) / segmentSizeFor xDist yDist)

/-- One segment target coordinate (line 548):
`int(current + step * (i+1))` with `step = (target - c0)/n` fixed at entry;
exact value `(ci·n + (target - c0)·(i+1)) / n` truncated toward zero, which
is `Int.tdiv`.  `ci` is the cached coordinate re-read after each segment. -/
def segmentTarget (c0 target ci : Int) (i n : Nat) : Int :=
  Int.tdiv (ci * (n : Int) + (target - c0) * ((i : Int) + 1)) (n : Int)

/-- The waypoint list produced by the segmented branch of `move_to` (lines
546-568), as data: `reads` supplies the positions `get_position` reports
after each completed segment (line 586), consumed one per segment; if the
oracle runs short the device is assumed to sit exactly on the segment
target.  The final segment targets the exact requested coordinate
(lines 552-554). -/
def segmentTargetsGo (c0x c0y x y : Int) (n : Nat) :
    List Nat → Int × Int → List (Int × Int) → List (Int × Int)
  | [], _, _ => []
  | i :: rest, cur, reads =>
    let sx := if i = n - 1 then x else segmentTarget c0x x cur.1 i n
    let sy := if i = n - 1 then y else segmentTarget c0y y cur.2 i n
    (sx, sy) :: segmentTargetsGo c0x c0y x y n rest (reads.headD (sx, sy)) reads.tail

/-- The waypoints of a segmented `move_to` from cached position `(cx, cy)`
to `(x, y)`. -/
def segmentTargets (cx cy x y : Int) (reads : List (Int × Int)) : List (Int × Int) :=
  let n := segmentCount (x - cx).natAbs (y - cy).natAbs
  segmentTargetsGo cx cy x y n (List.range n) (cx, cy) reads

/-- The per-segment command loop of `move_to` (lines 546-592): send the
segment's absolute move, wait for segment completion, re-read the cached
position, continue; any failure aborts the whole move. -/
def moveToLoop (c0x c0y x y : Int) (n : Nat) :
    CState → List Nat → Int × Int → CState × Bool
  | st, [], _ => (st, true)
  | st, i :: rest, cur =>
    let sx := if i = n - 1 then x else segmentTarget c0x x cur.1 i n
    let sy := if i = n - 1 then y else segmentTarget c0y y cur.2 i n
    match sendCommand st 2 3 sx sy 3 false with
    | (st1, none) => (st1, false)
    | (st1, some _) =>
      let reached := st1.waitResults.headD false
      let st2 : CState := { st1 with waitResults := st1.waitResults.tail }
      if reached then
        let r := getPosition st2
        moveToLoop c0x c0y x y n r.1 rest r.2
      else (st2, false)
  termination_by _ l _ => l.length

/-- `move_to` (lines 505-622): read the cached position, enable motors if
needed, and either run the segmented loop (either axis displacement above
the 40-step threshold) or send a single absolute move. -/
def moveTo (st : CState) (x y : Int) : CState × Bool :=
  let p := getPosition st
  let cx := p.2.1
  let cy := p.2.2
  let xDist := (x - cx).natAbs
  let yDist := (y - cy).natAbs
  let st1 := if !p.1.motorsEnabled then (enableMotors p.1).1 else p.1
  if 40 < xDist ∨ 40 < yDist then
    let n := segmentCount xDist yDist
    moveToLoop cx cy x y n st1 (List.range n) (cx, cy)
  else
    match sendCommand st1 2 3 x y 3 false with
    | (st2, none) => (st2, false)
    | (st2, some _) =>
      let reached := st2.waitResults.headD false
      ({ st2 with waitResults := st2.waitResults.tail }, reached)

/-- `move_by` (lines 624-660): relative moves above 75 steps on either axis
are redirected through `move_to`; smaller ones are a single `CMD_MOVE`. -/
def moveBy (st : CState) (dx dy : Int) : CState × Bool :=
  if 75 < dx.natAbs ∨ 75 < dy.natAbs then
    let p := getPosition st
    moveTo p.1 (p.2.1 + dx) (p.2.2 + dy)
  else
    let r := sendCommand st 1 3 dx dy 3 false
    (r.1, r.2.isSome)

/-! ## Arrival waiting (`_wait_for_segment_completion`, lines 396-477)

The polling loop is modelled over the sequence of position checks it
performs: one `WaitObs` per check, carrying the (absolute, rational) time of
the check, the position reported by `get_position`, and the running flags
`get_status` would report if consulted at that check.  `start_time` is taken
as 0. -/

/-- One position check: time, sampled position, and running flags. -/
structure WaitObs where
  t : ℚ
  x : Int
  y : Int
  xRun : Bool
  yRun : Bool
deriving Repr, DecidableEq

/-- Loop state across checks: `consecutive_stable_positions`,
`last_position`, `last_status_time` (initially 0). -/
structure WaitState where
  stableCount : Nat
  lastPos : Option (Int × Int)
  lastStatusTime : ℚ
deriving Repr, DecidableEq

/-- Initial loop state of `_wait_for_segment_completion`. -/
def initWaitState : WaitState := ⟨0, none, 0⟩

/-- Result of one polling step: the loop either returns `b` or continues
with an updated state. -/
inductive StepRes where
  | done (b : Bool)
  | cont (st : WaitState)
deriving Repr, DecidableEq

/-- The widened acceptance tolerance after `c` consecutive stable readings
(line 444): `tolerance * (1 + consecutive_stable_positions * 0.5)`. -/
def widerTolerance (tol : ℚ) (c : Nat) : ℚ := tol * (1 + (c : ℚ) / 2)

/-- One polling step of `_wait_for_segment_completion` (lines 414-470):
target check with base tolerance; stability tracking (position delta < 2 on
both axes); widened-tolerance acceptance needing at least 2 stable
readings; and, throttled to once per second from the 3rd stable reading on,
a running-status check that declares failure when the motors have stopped
off-target — unless 5 or more stable readings have accumulated, in which
case the current position is accepted with no tolerance check at all
(lines 460-464). -/
def segStep (tx ty : Int) (tol : ℚ) (st : WaitState) (o : WaitObs) : StepRes :=
  let stable : Bool :=
    match st.lastPos with
    | some lp => decide (|o.x - lp.1| < 2) && decide (|o.y - lp.2| < 2)
    | none => false
  if ((|o.x - tx| : ℚ) ≤ tol ∧ (|o.y - ty| : ℚ) ≤ tol) then .done true
  else if stable then
    let c := st.stableCount + 1
    let wider := widerTolerance tol c
    if ((|o.x - tx| : ℚ) ≤ wider ∧ (|o.y - ty| : ℚ) ≤ wider ∧ 2 ≤ c) then .done true
    else if 3 ≤ c ∧ st.lastStatusTime + 1 ≤ o.t then
      -- get_status consulted; last_status_time updated to the check time
      if o.xRun || o.yRun then .cont ⟨c, some (o.x, o.y), o.t⟩
      else if 5 ≤ c then .done true
      else .done false
    else .cont ⟨c, some (o.x, o.y), st.lastStatusTime⟩
  else .cont ⟨0, some (o.x, o.y), st.lastStatusTime⟩

/-- `_wait_for_segment_completion` as a fold of `segStep` over the checks;
a check at or past the timeout (or running out of checks) is the timeout
return `False` (line 477). -/
def segWait (tx ty : Int) (tol timeout : ℚ) : WaitState → List WaitObs → Bool
  | _, [] => false
  | st, o :: rest =>
    if o.t < timeout then
      match segStep tx ty tol st o with
      | .done b => b
      | .cont st' => segWait tx ty tol timeout st' rest
    else false

/-- The same polling loop as `segWait`, additionally reporting the step at
which the loop returned: `some (st, o, b)` is the loop state and the
observation of the check at which the code returned `b`; `none` is the
timeout path.  `segWait_eq_segWaitRun` (restated inside the C3 theorem)
shows the two folds agree, so the `(st, o)` it reports is the run's own
returning step, not a fabricated one. -/
def segWaitRun (tx ty : Int) (tol timeout : ℚ) :
    WaitState → List WaitObs → Option (WaitState × WaitObs × Bool)
  | _, [] => none
  | st, o :: rest =>
    if o.t < timeout then
      match segStep tx ty tol st o with
      | .done b => some (st, o, b)
      | .cont st' => segWaitRun tx ty tol timeout st' rest
    else none

/-! ## Command pacing (`_send_command`, lines 236-288) — timing model

Send timestamps are rationals; sleeps and waits are taken as exact.  The
spacing check runs once per `_send_command` call, before the retry loop, and
`last_command_time` is recorded once, right before the first attempt
(lines 240-251).  A failed attempt re-sends after its wait window with no
further spacing check. -/

/-- How one retry attempt ends: a frame arrives `d` seconds after the send
(the call returns), or the wait window expires and the next attempt
re-sends. -/
inductive AttemptEnd where
  | response (d : ℚ)
  | expire
deriving Repr, DecidableEq

/-- One `_send_command` call for the timing model: whether it is a movement
command, its `timeout` argument, and how each attempt ends. -/
structure CallSpec where
  isMove : Bool
  timeout : ℚ
  ends : List AttemptEnd
deriving Repr, DecidableEq

/-- Minimum spacing before the first send of a call (line 244):
0.5 s for movement commands, `command_spacing` otherwise. -/
def minSpacingFor (commandSpacing : ℚ) (isMove : Bool) : ℚ :=
  if isMove then 1 / 2 else commandSpacing

/-- Length of one attempt's wait window when no frame arrives: movement
commands use `min(2.0, timeout)` (line 271), others the full timeout. -/
def waitLen (isMove : Bool) (timeout : ℚ) : ℚ :=
  if isMove then min 2 timeout else timeout

/-- The retry loop's send timestamps: each attempt sends at `now`; a
response `d` seconds later ends the call; an expired window re-sends
immediately after it.  Returns the time the call returns and the send
timestamps. -/
def runAttemptTimes (isMove : Bool) (timeout : ℚ) : ℚ → List AttemptEnd → ℚ × List ℚ
  | now, [] => (now, [])
  | now, .response d :: _ => (now + d, [now])
  | now, .expire :: rest =>
    let r := runAttemptTimes isMove timeout (now + waitLen isMove timeout) rest
    (r.1, now :: r.2)

/-- One `_send_command` call in the timing model.  State is
`(last_command_time, current time)`; the call blocks for the spacing
shortfall (lines 246-249), records `last_command_time` (line 251), and runs
its attempts.  Returns the new state and the send timestamps, each tagged
with whether the command was a movement command. -/
def runCall (commandSpacing : ℚ) (st : ℚ × ℚ) (c : CallSpec) :
    (ℚ × ℚ) × List (ℚ × Bool) :=
  let m := minSpacingFor commandSpacing c.isMove
  let sendStart := if st.2 - st.1 < m then st.1 + m else st.2
  let r := runAttemptTimes c.isMove c.timeout sendStart c.ends
  ((sendStart, r.1), r.2.map (fun t => (t, c.isMove)))

/-- A sequence of `_send_command` calls, collecting all send timestamps. -/
def runCalls (commandSpacing : ℚ) : ℚ × ℚ → List CallSpec → List (ℚ × Bool)
  | _, [] => []
  | st, c :: rest =>
    let r := runCall commandSpacing st c
    r.2 ++ runCalls commandSpacing r.1 rest

/-- The property claimed by the spec, over a tagged send-timestamp list:
every adjacent pair of frames is separated by at least the minimum spacing
of the later frame's command. -/
def spacedOk (commandSpacing : ℚ) : List (ℚ × Bool) → Bool
  | [] => true
  | [_] => true
  | p1 :: p2 :: rest =>
    decide (minSpacingFor commandSpacing p2.2 ≤ p2.1 - p1.1)
      && spacedOk commandSpacing (p2 :: rest)

/-! ## Recovery procedure (`_attempt_recovery`, `simple_scanner.py` lines
349-450) -/

/-- Oracle results for the motor-controller calls recovery makes:
the step-1 `move_to`, the step-1 `wait_for_position`, `home`, the step-2
`move_to`, and the step-2 `wait_for_position`. -/
structure RecoveryEnv where
  moveTo1 : Bool
  wait1 : Bool
  homeOk : Bool
  moveTo2 : Bool
  wait2 : Bool
deriving Repr, DecidableEq

/-- The configuration values recovery reads: motor speeds/accelerations,
`movement_timeout`, `position_tolerance`. -/
structure RecoveryConfig where
  motorSpeedX : Int
  motorSpeedY : Int
  motorAccelX : Int
  motorAccelY : Int
  movementTimeout : ℚ
  positionTolerance : Int
deriving Repr, DecidableEq

/-- The `DEFAULT_CONFIG` values used by recovery. -/
def defaultRecoveryConfig : RecoveryConfig := ⟨600, 600, 1000, 1000, 10, 3⟩

/-- The externally visible actions recovery performs, in order. -/
inductive RecAction where
  | stopCmd
  | enableCmd
  | speedCmd (x y : Int)
  | accelCmd (x y : Int)
  | moveByCmd (dx dy : Int)
  | moveToCmd (x y : Int)
  | waitCmd (x y : Int) (timeout : ℚ) (tol : Int)
  | homeCmd
  | sleepCmd (d : ℚ)
deriving Repr, DecidableEq

/-- Step 2 of recovery (lines 416-446): re-home, pause 1 s, retry the move,
and wait with `timeout=extended_timeout` and the original tolerance.
`extended_timeout` is a Python local assigned only inside step 1's
`if move_to(...):` block (line 394); when step 1's `move_to` returned
`False` it is still unbound here, so evaluating the `wait_for_position`
arguments raises `UnboundLocalError`, which the `except` at line 448
catches, returning `False`. -/
def recoveryStep2 (cfg : RecoveryConfig) (env : RecoveryEnv) (tx ty : Int)
    (extendedTimeout : Option ℚ) (acts : List RecAction) : Bool × List RecAction :=
  if env.homeOk then
    let acts1 := acts ++ [.homeCmd, .sleepCmd 1]
    if env.moveTo2 then
      let acts2 := acts1 ++ [.moveToCmd tx ty]
      match extendedTimeout with
      | none => (false, acts2)
      | some t =>
        let acts3 := acts2 ++ [.waitCmd tx ty t cfg.positionTolerance]
        if env.wait2 then
          (true, acts3 ++ [.speedCmd cfg.motorSpeedX cfg.motorSpeedY,
                           .accelCmd cfg.motorAccelX cfg.motorAccelY])
        else (false, acts3)
    else (false, acts1)
  else (false, acts)

/-- `_attempt_recovery` (lines 349-450): stop, re-enable, halve speed and
acceleration (Python `//`, i.e. floor division), nudge by (+10,+10) then
(-10,-10) (`get_position` always returns a concrete pair, so the `None`
guard at line 384 holds), retry the move with 1.5x timeout and 2x
tolerance, restoring speed/acceleration on success; otherwise fall through
to step 2. -/
def attemptRecovery (cfg : RecoveryConfig) (env : RecoveryEnv) (tx ty : Int) :
    Bool × List RecAction :=
  let pre : List RecAction :=
    [.stopCmd, .sleepCmd (1 / 2), .enableCmd, .sleepCmd (1 / 2),
     .speedCmd (Int.fdiv cfg.motorSpeedX 2) (Int.fdiv cfg.motorSpeedY 2),
     .accelCmd (Int.fdiv cfg.motorAccelX 2) (Int.fdiv cfg.motorAccelY 2),
     .moveByCmd 10 10, .sleepCmd (1 / 2), .moveByCmd (-10) (-10), .sleepCmd (1 / 2)]
  if env.moveTo1 then
    let extendedTimeout : ℚ := cfg.movementTimeout * (3 / 2)
    let acts1 := pre ++ [.moveToCmd tx ty,
                         .waitCmd tx ty extendedTimeout (cfg.positionTolerance * 2)]
    if env.wait1 then
      (true, acts1 ++ [.speedCmd cfg.motorSpeedX cfg.motorSpeedY,
                       .accelCmd cfg.motorAccelX cfg.motorAccelY])
    else
      recoveryStep2 cfg env tx ty (some extendedTimeout) acts1
  else
    recoveryStep2 cfg env tx ty none (pre ++ [.moveToCmd tx ty])

/-! ## Scan orchestrator (`perform_scan`, `simple_scanner.py` lines 452-577) -/

/-- One grid coordinate (lines 501-502):
`int(lo + (hi - lo) * idx / max(1, steps - 1))`, the exact rational
truncated toward zero. -/
def gridCoord (lo hi : Int) (steps idx : Nat) : Int :=
  let d : Int := (max 1 (steps - 1) : Nat)
  Int.tdiv (lo * d + (hi - lo) * (idx : Int)) d

/-- The snake-ordered scan plan (lines 496-509): rows by `y_idx`, each row
the `x_idx` sweep, with every odd row reversed.  Entries are
`(x_pos, y_pos, x_idx, y_idx)`. -/
def scanPositions (xlo xhi ylo yhi : Int) (xSteps ySteps : Nat) :
    List (Int × Int × Nat × Nat) :=
  (List.range ySteps).flatMap (fun yIdx =>
    let row := (List.range xSteps).map (fun xIdx =>
      (gridCoord xlo xhi xSteps xIdx, gridCoord ylo yhi ySteps yIdx, xIdx, yIdx))
    if yIdx % 2 = 1 then row.reverse else row)

/-- The observable result of a scan: points visited, data-callback
invocations `(pos_x, pos_y, x_idx, y_idx)`, final `completed_points`, final
`total_points`, final `points_done`, and the returned success flag. -/
structure ScanResult where
  visited : List (Int × Int × Nat × Nat)
  callbacks : List (Int × Int × Nat × Nat)
  completedPoints : Nat
  totalPoints : Nat
  pointsDone : List (Nat × Nat)
  success : Bool
deriving Repr, DecidableEq

/-- The per-point loop of `perform_scan` (lines 520-559): move (via
`move_to_position`, abstracted by the `moveOk` oracle), read back the
actual position (the `actual` oracle), invoke the data callback, append
`(y_idx, x_idx)` to `points_done` and bump `completed_points`; a failed
move returns `False` immediately. -/
def scanLoop (actual : Int → Int → Int × Int) (moveOk : Int → Int → Bool)
    (total : Nat) : List (Int × Int × Nat × Nat) → ScanResult → ScanResult
  | [], acc => { acc with success := true, totalPoints := total }
  | (x, y, xi, yi) :: rest, acc =>
    if moveOk x y then
      let a := actual x y
      scanLoop actual moveOk total rest
        { acc with
          visited := acc.visited ++ [(x, y, xi, yi)]
          callbacks := acc.callbacks ++ [(a.1, a.2, xi, yi)]
          completedPoints := acc.completedPoints + 1
          pointsDone := acc.pointsDone ++ [(yi, xi)] }
    else { acc with success := false, totalPoints := total }

/-- `perform_scan` (lines 452-577): zero step counts mean the scan was not
initialised (line 457); without `resume` the progress is reset (lines
474-476); with `resume` and a nonempty `points_done` the plan is filtered by
`(y_idx, x_idx)` membership (lines 512-514); the remaining count becomes the
new total (line 516) and `processed_points` restarts at 0 (line 517). -/
def performScan (xr yr : Int × Int) (xSteps ySteps : Nat) (resume : Bool)
    (done0 : List (Nat × Nat)) (moveOk : Int → Int → Bool)
    (actual : Int → Int → Int × Int) : ScanResult :=
  if xSteps = 0 ∨ ySteps = 0 then ⟨[], [], 0, xSteps * ySteps, done0, false⟩
  else
    let done := if resume then done0 else []
    let positions0 := scanPositions xr.1 xr.2 yr.1 yr.2 xSteps ySteps
    let positions := if resume && !done.isEmpty then
        positions0.filter (fun p => !(done.contains (p.2.2.2, p.2.2.1)))
      else positions0
    let total := positions.length
    scanLoop actual moveOk total positions ⟨[], [], 0, total, done, true⟩

/-! ## Configuration (`configure`, `simple_scanner.py` lines 174-209) -/

/-- A configuration value: the `DEFAULT_CONFIG` dictionary holds ints,
floats, int pairs and booleans. -/
inductive ConfigVal where
  | int (n : Int)
  | rat (q : ℚ)
  | range (lo hi : Int)
  | flag (b : Bool)
deriving Repr, DecidableEq

/-- `DEFAULT_CONFIG` (lines 26-51). -/
def defaultConfig : List (String × ConfigVal) :=
  [("motor_speed_x", .int 600), ("motor_speed_y", .int 600),
   ("motor_accel_x", .int 1000), ("motor_accel_y", .int 1000),
   ("default_x_range", .range 0 100), ("default_y_range", .range 0 100),
   ("default_x_steps", .int 5), ("default_y_steps", .int 5),
   ("stabilization_delay", .rat (1 / 10)), ("movement_timeout", .rat 10),
   ("position_tolerance", .int 3), ("retry_attempts", .int 3),
   ("recovery_enabled", .flag true),
   ("auto_disable_on_exit", .flag true), ("auto_return_to_joystick", .flag true)]

/-- Outcome of a `configure` call: the updated config dictionary, the keys
warned about as unknown, and the raised error if any (modelling Python
exceptions; `configure` has no raise site, so this is always `none`). -/
structure ConfigureResult where
  config : List (String × ConfigVal)
  warnings : List String
  error : Option String
deriving Repr, DecidableEq

/-- Dictionary update of an existing key. -/
def setKey (cfg : List (String × ConfigVal)) (k : String) (v : ConfigVal) :
    List (String × ConfigVal) :=
  cfg.map (fun p => if p.1 = k then (k, v) else p)

/-- `key in self.config`. -/
def hasKey (cfg : List (String × ConfigVal)) (k : String) : Bool :=
  cfg.any (fun p => p.1 = k)

/-- The update loop of `configure` (lines 184-195): a recognised key is
stored; an unknown key is logged as a warning and ignored. -/
def configureGo : List (String × ConfigVal) → List String →
    List (String × ConfigVal) → ConfigureResult
  | cfg, warns, [] => ⟨cfg, warns, none⟩
  | cfg, warns, (k, v) :: rest =>
    if hasKey cfg k then configureGo (setKey cfg k v) warns rest
    else configureGo cfg (warns ++ [k]) rest

/-- `configure` (lines 174-209) on a dictionary-style update. -/
def configure (cfg : List (String × ConfigVal)) (updates : List (String × ConfigVal)) :
    ConfigureResult :=
  configureGo cfg [] updates

/-! ## Concrete frames used by the engine theorems -/

/-- A Status frame (`RESP_STATUS = 3`) whose `cmd_echo` byte is 8
(`CMD_STATUS`), position (10, 20), speeds (1, 2), both axes running,
serial mode. -/
def statusEchoBuf : List Nat :=
  [3, 8, 10, 0, 0, 0, 20, 0, 0, 0, 1, 0, 2, 0, 1, 1, 1, 0, 0, 0, 0, 0, 0]

/-- An Ok frame (`RESP_OK = 1`) echoing command id 8. -/
def okBuf8 : List Nat := [1, 8, 0, 0, 0]

/-- An Error frame (`RESP_ERROR = 2`) with value bytes 9,100,0,0 and the
residual buffer contents a stale status payload: read as a status frame it
parses to position (100, 50), speeds (300, 500), X running, mode 1. -/
def errBuf : List Nat :=
  [2, 9, 100, 0, 0, 0, 50, 0, 0, 0, 44, 1, 244, 1, 1, 0, 1, 0, 0, 0, 0, 0, 0]

/-! ## Theorems -/

/-- Helper: `_send_command` returns `None` untouched when disconnected or
the transfer object is absent (lines 229-231). -/
theorem sendCommand_disconnected (st : CState) (cid ms : Nat) (p1 p2 : Int)
    (rc : Nat) (fr : Bool) (h : st.connected = false ∨ st.hasTransfer = false) :
    sendCommand st cid ms p1 p2 rc fr = (st, none) := by
  unfold sendCommand
  rcases h with h | h <;> simp [h]

/-- Helper: `get_status` falls back to the cached values when disconnected. -/
theorem getStatus_disconnected (st : CState)
    (h : st.connected = false ∨ st.hasTransfer = false) :
    getStatus st = (st, ⟨st.cache.currentPosition, st.cache.currentSpeed,
                        st.cache.isRunning, st.cache.currentMode⟩) := by
  unfold getStatus
  rw [sendCommand_disconnected st 8 0 0 0 3 false h]

/-- Helper: `get_position` returns the cached position when disconnected. -/
theorem getPosition_disconnected (st : CState)
    (h : st.connected = false ∨ st.hasTransfer = false) :
    getPosition st = (st, st.cache.currentPosition) := by
  unfold getPosition
  rw [getStatus_disconnected st h]

/-- Helper: when disconnected, the first segment's send fails and the
segment loop reports failure. -/
theorem moveToLoop_disconnected (c0x c0y x y : Int) (n : Nat) (st : CState)
    (i : Nat) (rest : List Nat) (cur : Int × Int)
    (h : st.connected = false ∨ st.hasTransfer = false) :
    moveToLoop c0x c0y x y n st (i :: rest) cur = (st, false) := by
  simp only [moveToLoop]
  rw [sendCommand_disconnected st 2 3 _ _ 3 false h]

/-- Helper: `enable_motors` fails without state change when disconnected. -/
theorem enableMotors_disconnected (st : CState)
    (h : st.connected = false ∨ st.hasTransfer = false) :
    enableMotors st = (st, false) := by
  unfold enableMotors
  rw [sendCommand_disconnected st 10 3 0 0 3 false h]

/-- Helper: `move_to` reports failure without state change when
disconnected. -/
theorem moveTo_disconnected (st : CState) (x y : Int)
    (h : st.connected = false ∨ st.hasTransfer = false) :
    moveTo st x y = (st, false) := by
  unfold moveTo
  rw [getPosition_disconnected st h]
  simp only [enableMotors_disconnected st h, ite_self]
  split
  · have hn : 0 < segmentCount (x - st.cache.currentPosition.1).natAbs
        (y - st.cache.currentPosition.2).natAbs :=
      Nat.lt_of_lt_of_le (by norm_num) (Nat.le_max_left 2 _)
    obtain ⟨m, hm⟩ := Nat.exists_eq_succ_of_ne_zero (Nat.pos_iff_ne_zero.mp hn)
    rw [hm, List.range_succ_eq_map]
    exact moveToLoop_disconnected _ _ x y _ st _ _ _ h
  · rw [sendCommand_disconnected st 2 3 x y 3 false h]

/-- Claim C10: with the controller disconnected (or the transfer object
absent), `_send_command` returns `None` with the state — in particular the
transport write log — unchanged, every command-backed public method reports
failure instead of raising, and `get_status` falls back to the cached
`DeviceState` values. -/
theorem disconnected_commands_fail_safely (st : CState) (x y dx dy sx sy ax ay m p1 p2 : Int)
    (cid ms rc : Nat) (fr : Bool)
    (h : st.connected = false ∨ st.hasTransfer = false) :
    sendCommand st cid ms p1 p2 rc fr = (st, none) ∧
    moveTo st x y = (st, false) ∧
    moveBy st dx dy = (st, false) ∧
    setSpeed st sx sy = (st, false) ∧
    setAcceleration st ax ay = (st, false) ∧
    home st = (st, false) ∧
    stop st = (st, false) ∧
    setMode st m = (st, false) ∧
    enableMotors st = (st, false) ∧
    disableMotors st = (st, false) ∧
    getStatus st = (st, ⟨st.cache.currentPosition, st.cache.currentSpeed,
                        st.cache.isRunning, st.cache.currentMode⟩) := by
  refine ⟨sendCommand_disconnected st cid ms p1 p2 rc fr h,
          moveTo_disconnected st x y h, ?_, ?_, ?_, ?_, ?_, ?_,
          enableMotors_disconnected st h, ?_, getStatus_disconnected st h⟩
  · unfold moveBy
    split
    · rw [getPosition_disconnected st h]
      exact moveTo_disconnected st _ _ h
    · rw [sendCommand_disconnected st 1 3 dx dy 3 false h]
      rfl
  · unfold setSpeed
    rw [sendCommand_disconnected st 3 3 sx sy 3 false h]
    rfl
  · unfold setAcceleration
    rw [sendCommand_disconnected st 4 3 ax ay 3 false h]
    rfl
  · unfold home
    rw [sendCommand_disconnected st 5 3 0 0 3 false h]
    rfl
  · unfold stop
    rw [sendCommand_disconnected st 6 3 0 0 3 false h]
    rfl
  · unfold setMode
    rw [sendCommand_disconnected st 7 0 m 0 3 false h]
    rfl
  · unfold disableMotors
    rw [sendCommand_disconnected st 9 3 0 0 3 false h]

/-- Witness for C10: a concrete disconnected state. -/
theorem disconnected_commands_fail_safely_witness :
    ((⟨false, true, zeroCache, false, [], [], []⟩ : CState).connected = false ∨
     (⟨false, true, zeroCache, false, [], [], []⟩ : CState).hasTransfer = false) ∧
    moveTo ⟨false, true, zeroCache, false, [], [], []⟩ 0 0 =
      (⟨false, true, zeroCache, false, [], [], []⟩, false) :=
  ⟨Or.inl rfl,
   (disconnected_commands_fail_safely ⟨false, true, zeroCache, false, [], [], []⟩
      0 0 0 0 0 0 0 0 0 0 0 0 0 3 false (Or.inl rfl)).2.1⟩

/-- Claim C1: after `initialize_scan(x_range=(0,100), y_range=(0,100),
x_steps=2, y_steps=2)`, `perform_scan` builds the grid by the truncated
linear interpolation `pos = lo + (hi-lo)*idx/(steps-1)` (or `lo` when
`steps == 1`), reverses odd rows, and visits the snake order
`(0,0), (100,0), (100,100), (0,100)`; with every move succeeding it invokes
the data callback once per point, ends with `completed_points == 4` and
returns success. -/
theorem performScan_2x2_snake_order :
    scanPositions 0 100 0 100 2 2 =
      [(0, 0, 0, 0), (100, 0, 1, 0), (100, 100, 1, 1), (0, 100, 0, 1)] ∧
    performScan (0, 100) (0, 100) 2 2 false [] (fun _ _ => true) (fun a b => (a, b)) =
      ⟨[(0, 0, 0, 0), (100, 0, 1, 0), (100, 100, 1, 1), (0, 100, 0, 1)],
       [(0, 0, 0, 0), (100, 0, 1, 0), (100, 100, 1, 1), (0, 100, 0, 1)],
       4, 4, [(0, 0), (0, 1), (1, 1), (1, 0)], true⟩ := by
  decide

/-- Claim C7: with `points_done = [(0,0),(0,1)]` (row, col) on a 2x2 grid,
`perform_scan(resume=True)` filters those points out of the snake plan,
visits exactly the 2 remaining points, does not re-invoke the data callback
for the completed ones, and uses the remaining count (2) as the new total. -/
theorem performScan_resume_2x2 :
    performScan (0, 100) (0, 100) 2 2 true [(0, 0), (0, 1)]
        (fun _ _ => true) (fun a b => (a, b)) =
      ⟨[(100, 100, 1, 1), (0, 100, 0, 1)], [(100, 100, 1, 1), (0, 100, 0, 1)],
       2, 2, [(0, 0), (0, 1), (1, 1), (1, 0)], true⟩ ∧
    ((0 : Int), (0 : Int), (0 : Nat), (0 : Nat)) ∉
      (performScan (0, 100) (0, 100) 2 2 true [(0, 0), (0, 1)]
        (fun _ _ => true) (fun a b => (a, b))).callbacks ∧
    ((100 : Int), (0 : Int), (1 : Nat), (0 : Nat)) ∉
      (performScan (0, 100) (0, 100) 2 2 true [(0, 0), (0, 1)]
        (fun _ _ => true) (fun a b => (a, b))).callbacks := by
  decide

/-- Claim C4 (code bug): the claim says a Status/Position frame with
`cmd_echo` equal to the sent command id yields a successful correlated
outcome exactly as a matching Ok frame does.  In the code the branch that
recognises `cmd_echo == command_id` (line 352) has no `return` statement, so
a correlated status frame is treated exactly like an uncorrelated one: the
wait keeps running until the full timeout and only then resolves to the
generic derived success (first conjunct) — whereas a matching Ok returns a
direct, non-derived outcome (third conjunct) — and with `force_retry` set
the correlated status frame leads to outright failure after the retries
(second conjunct).  An intervening Error frame indeed does not terminate
the wait (fourth conjunct). -/
theorem sendCommand_correlated_status_ignored :
    (sendAttempts 8 false zeroCache [[statusEchoBuf]]).2.2 =
      some ⟨1, 8, true, false⟩ ∧
    (sendAttempts 8 true zeroCache
      [[statusEchoBuf], [statusEchoBuf], [statusEchoBuf]]).2.2 = none ∧
    (sendAttempts 8 false zeroCache [[okBuf8]]).2.2 =
      some ⟨1, 8, false, false⟩ ∧
    (sendAttempts 8 false zeroCache [[errBuf, okBuf8]]).2.2 =
      some ⟨1, 8, false, false⟩ := by
  decide

/-- Claim C5 (code bug): the claim says decoding an Ok, Error or Ping
response never changes the cached `DeviceState`.  Because the `try:` block
holding the status parse is dedented to the same level as the `resp_id`
dispatch (line 317), an Error frame's buffer is parsed as a status payload
and overwrites the cache (first two conjuncts).  Status-bearing frames do
update the cache whether or not they satisfy the wait (third conjunct). -/
theorem processFrame_error_updates_cache :
    processFrame 8 zeroCache errBuf =
      (⟨(100, 50), (300, 500), (true, false), 1⟩, false, none) ∧
    statusParse errBuf ≠ zeroCache ∧
    processFrame 8 zeroCache statusEchoBuf =
      (⟨(10, 20), (1, 2), (true, true), 1⟩, true, none) := by
  decide

/-- Counterexample to claim C9: `configure` with an unknown key returns
normally — the error component is `none`, no `ConfigurationError` is
surfaced — while the key's value is indeed not stored (the config is
unchanged) and the key is only logged as a warning. -/
theorem configure_unknown_key_no_error :
    configure defaultConfig [("bogus_key", ConfigVal.int 1)] =
      ⟨defaultConfig, ["bogus_key"], none⟩ ∧
    (configure defaultConfig [("bogus_key", ConfigVal.int 1)]).error = none := by
  constructor <;> rfl

/-- Claim C9 (amended): a configuration key outside the recognised set is
not stored — the config dictionary is unchanged — and is reported through a
logged warning; `configure` completes without raising any error. -/
theorem configure_unknown_key_amended (k : String) (v : ConfigVal)
    (h : hasKey defaultConfig k = false) :
    configure defaultConfig [(k, v)] = ⟨defaultConfig, [k], none⟩ := by
  simp [configure, configureGo, h]

/-- Witness for the amended C9 at a concrete unknown key. -/
theorem configure_unknown_key_amended_witness :
    hasKey defaultConfig "not_a_key" = false ∧
    configure defaultConfig [("not_a_key", ConfigVal.int 7)] =
      ⟨defaultConfig, ["not_a_key"], none⟩ :=
  ⟨by rfl, configure_unknown_key_amended "not_a_key" (ConfigVal.int 7) (by rfl)⟩

/-- Claim C8 (code bug): when step 1 of recovery fails because its
`move_to` returned `False`, the Python local `extended_timeout` (assigned
only inside step 1's `if move_to:` block, line 394) is still unbound in
step 2, so the re-home retry's `wait_for_position` call raises
`UnboundLocalError`, is caught, and recovery returns `False` even though
re-home, the retried move and the arrival wait would all succeed (first
conjunct: the trace shows the re-home and the retried move but no wait and
no speed restore).  When step 1 fails at its `wait_for_position` instead,
step 2 behaves as the claim says: re-home, 1 s pause, retry with the 1.5x
timeout (15) and the original tolerance (3), restoring speed/acceleration
on success (second conjunct). -/
theorem attemptRecovery_rehome_unbound_timeout :
    attemptRecovery defaultRecoveryConfig ⟨false, false, true, true, true⟩ 50 50 =
      (false,
       [.stopCmd, .sleepCmd (1 / 2), .enableCmd, .sleepCmd (1 / 2),
        .speedCmd 300 300, .accelCmd 500 500,
        .moveByCmd 10 10, .sleepCmd (1 / 2), .moveByCmd (-10) (-10), .sleepCmd (1 / 2),
        .moveToCmd 50 50, .homeCmd, .sleepCmd 1, .moveToCmd 50 50]) ∧
    attemptRecovery defaultRecoveryConfig ⟨true, false, true, true, true⟩ 50 50 =
      (true,
       [.stopCmd, .sleepCmd (1 / 2), .enableCmd, .sleepCmd (1 / 2),
        .speedCmd 300 300, .accelCmd 500 500,
        .moveByCmd 10 10, .sleepCmd (1 / 2), .moveByCmd (-10) (-10), .sleepCmd (1 / 2),
        .moveToCmd 50 50, .waitCmd 50 50 15 6,
        .homeCmd, .sleepCmd 1, .moveToCmd 50 50, .waitCmd 50 50 15 3,
        .speedCmd 600 600, .accelCmd 1000 1000]) := by
  norm_num [attemptRecovery, recoveryStep2, defaultRecoveryConfig,
    (by decide : Int.fdiv 600 2 = 300), (by decide : Int.fdiv 1000 2 = 500)]

/-- Counterexample to claim C6: a movement call whose first attempt times
out re-sends 2 s later and is answered 0.2 s after the re-send; the next
movement call then passes the spacing check against `last_command_time`
(recorded at the first attempt) and sends 0.2 s after the previous frame —
below the 0.5 s movement minimum.  Send timestamps: 1/2, 5/2, 27/10. -/
theorem commandSpacing_retry_counterexample :
    runCalls (1 / 10) (0, 0)
        [⟨true, 2, [.expire, .response (1 / 5)]⟩, ⟨true, 2, [.response 0]⟩] =
      [(1 / 2, true), (5 / 2, true), (27 / 10, true)] ∧
    spacedOk (1 / 10) (runCalls (1 / 10) (0, 0)
        [⟨true, 2, [.expire, .response (1 / 5)]⟩, ⟨true, 2, [.response 0]⟩]) =
      false := by
  have h : runCalls (1 / 10) (0, 0)
      [⟨true, 2, [.expire, .response (1 / 5)]⟩, ⟨true, 2, [.response 0]⟩] =
      [(1 / 2, true), (5 / 2, true), (27 / 10, true)] := by
    norm_num [runCalls, runCall, runAttemptTimes, waitLen, minSpacingFor]
  refine ⟨h, ?_⟩
  rw [h]
  norm_num [spacedOk, minSpacingFor]

/-- Claim C6 (amended): the minimum spacing (0.5 s for movement commands,
`command_spacing` otherwise) is enforced once per `_send_command` call:
the first frame of a call is sent no earlier than the previous call's
recorded `last_command_time` (the previous call's first send) plus the
later call's minimum spacing.  Re-sends inside the retry loop are spaced
by the wait windows instead, so adjacent frames may be closer. -/
theorem commandSpacing_first_send_amended (commandSpacing last now : ℚ) (c : CallSpec) :
    last + minSpacingFor commandSpacing c.isMove ≤
      (runCall commandSpacing (last, now) c).1.1 := by
  simp only [runCall]
  split_ifs with h
  · simp
  · simp only [not_lt] at h
    linarith

/-- Helper: whenever one polling step of `_wait_for_segment_completion`
declares arrival, the step's sample was within the base tolerance, or
within the widened tolerance with at least 2 consecutive stable readings,
or at least 5 stable readings had accumulated with both motors reported
stopped (the tolerance-free acceptance of lines 460-463). -/
theorem segStep_done_true (tx ty : Int) (tol : ℚ) (st : WaitState) (o : WaitObs)
    (h : segStep tx ty tol st o = .done true) :
    ((|o.x - tx| : ℚ) ≤ tol ∧ (|o.y - ty| : ℚ) ≤ tol) ∨
    ((|o.x - tx| : ℚ) ≤ widerTolerance tol (st.stableCount + 1) ∧
     (|o.y - ty| : ℚ) ≤ widerTolerance tol (st.stableCount + 1) ∧
     2 ≤ st.stableCount + 1) ∨
    (5 ≤ st.stableCount + 1 ∧ o.xRun = false ∧ o.yRun = false) := by
  simp only [segStep] at h
  split_ifs at h with h1 h2 h3 h4 h5 h6
  all_goals
    first
      | exact Or.inl h1
      | exact Or.inr (Or.inl h3)
      | (have h5' := h5
         simp only [Bool.or_eq_true, not_or, Bool.not_eq_true] at h5'
         exact Or.inr (Or.inr ⟨h6, h5'.1, h5'.2⟩))
      | exact h.elim
      | simp at h

/-- Helper: `segWait` returns exactly the Boolean of the step reported by
`segWaitRun` (and `false` on the timeout path), so the step `segWaitRun`
reports is the step at which `segWait`'s run returned. -/
theorem segWait_eq_segWaitRun (tx ty : Int) (tol timeout : ℚ) :
    ∀ (obs : List WaitObs) (st : WaitState),
      segWait tx ty tol timeout st obs =
        (match segWaitRun tx ty tol timeout st obs with
         | some (_, _, b) => b
         | none => false) := by
  intro obs
  induction obs with
  | nil => intro st; rfl
  | cons o rest ih =>
    intro st
    rw [segWait, segWaitRun]
    split_ifs with ht
    · rcases heq : segStep tx ty tol st o with b | st'
      · simp only [heq]
      · simp only [heq]
        exact ih st'
    · rfl

/-- Helper: the step reported by `segWaitRun` did return that Boolean from
`segStep`: the reported state and observation are the ones at which the
polling loop stopped. -/
theorem segWaitRun_done (tx ty : Int) (tol timeout : ℚ) :
    ∀ (obs : List WaitObs) (st st' : WaitState) (o : WaitObs) (b : Bool),
      segWaitRun tx ty tol timeout st obs = some (st', o, b) →
      segStep tx ty tol st' o = .done b := by
  intro obs
  induction obs with
  | nil => intro st st' o b h; simp [segWaitRun] at h
  | cons o0 rest ih =>
    intro st st' o b h
    rw [segWaitRun] at h
    split_ifs at h with ht
    · rcases heq : segStep tx ty tol st o0 with bb | stc
      · simp only [heq, Option.some.injEq, Prod.mk.injEq] at h
        obtain ⟨rfl, rfl, rfl⟩ := h
        exact heq
      · simp only [heq] at h
        exact ih stc st' o b h

/-- Counterexample to claim C3: with target (0,0), tolerance 5 and timeout
5, a device parked at (100,100) that reports running at the first status
check (t=2) and stopped at the next (t=3) makes
`_wait_for_segment_completion` return success at the 5th consecutive stable
reading, although the sample is 100 steps from the target — far outside
even the widened tolerance `5 * (1 + 5*0.5) = 17.5`. -/
theorem segWait_accepts_outside_tolerance :
    segWait 0 0 5 5 initWaitState
      [⟨1 / 2, 100, 100, false, false⟩, ⟨1, 100, 100, false, false⟩,
       ⟨3 / 2, 100, 100, false, false⟩, ⟨2, 100, 100, true, false⟩,
       ⟨5 / 2, 100, 100, false, false⟩, ⟨3, 100, 100, false, false⟩] = true ∧
    ¬ ((|(100 : Int) - 0| : ℚ) ≤ widerTolerance 5 5) := by
  constructor
  · norm_num [segWait, segStep, initWaitState, widerTolerance]
  · norm_num [widerTolerance]

/-- Claim C3 (amended): whenever `_wait_for_segment_completion` declares
arrival, the run's own accepting polling step — the `(st, o)` reported by
`segWaitRun`, which the first conjunct proves computes the very Boolean
`segWait` returns — sampled a position within the base tolerance, or within
the current widened tolerance with at least 2 consecutive stable readings,
or — the path the original claim omits — at least 5 consecutive stable
readings had accumulated with both motors reported stopped, in which case
the position is accepted with no tolerance check at all.  The widened
tolerance `tolerance * (1 + stable*0.5)` is monotonically non-decreasing in
the stable count for nonnegative tolerance. -/
theorem segWait_success_characterization (tx ty : Int) (tol timeout : ℚ)
    (obs : List WaitObs) (h0 : 0 ≤ tol)
    (h : segWait tx ty tol timeout initWaitState obs = true) :
    (segWait tx ty tol timeout initWaitState obs =
      (match segWaitRun tx ty tol timeout initWaitState obs with
       | some (_, _, b) => b
       | none => false)) ∧
    (∃ st o, segWaitRun tx ty tol timeout initWaitState obs = some (st, o, true) ∧
      segStep tx ty tol st o = .done true ∧
      (((|o.x - tx| : ℚ) ≤ tol ∧ (|o.y - ty| : ℚ) ≤ tol) ∨
       ((|o.x - tx| : ℚ) ≤ widerTolerance tol (st.stableCount + 1) ∧
        (|o.y - ty| : ℚ) ≤ widerTolerance tol (st.stableCount + 1) ∧
        2 ≤ st.stableCount + 1) ∨
       (5 ≤ st.stableCount + 1 ∧ o.xRun = false ∧ o.yRun = false))) ∧
    (∀ c c' : Nat, c ≤ c' → widerTolerance tol c ≤ widerTolerance tol c') := by
  have hbridge := segWait_eq_segWaitRun tx ty tol timeout obs initWaitState
  refine ⟨hbridge, ?_, ?_⟩
  · rw [hbridge] at h
    rcases hrun : segWaitRun tx ty tol timeout initWaitState obs with _ | ⟨st, o, b⟩
    · rw [hrun] at h
      simp at h
    · rw [hrun] at h
      have hb : b = true := h
      subst hb
      have hstep := segWaitRun_done tx ty tol timeout obs initWaitState st o true hrun
      exact ⟨st, o, rfl, hstep, segStep_done_true tx ty tol st o hstep⟩
  · intro c c' hcc
    unfold widerTolerance
    have hc : (c : ℚ) ≤ (c' : ℚ) := by exact_mod_cast hcc
    have hsum : (1 : ℚ) + (c : ℚ) / 2 ≤ 1 + (c' : ℚ) / 2 := by linarith
    exact mul_le_mul_of_nonneg_left hsum h0

/-- Witness for the amended C3: a one-step run that arrives within the base
tolerance. -/
theorem segWait_success_characterization_witness :
    (0 : ℚ) ≤ 5 ∧
    segWait 0 0 5 5 initWaitState [⟨1 / 2, 3, 3, false, false⟩] = true ∧
    ((segWait 0 0 5 5 initWaitState [⟨1 / 2, 3, 3, false, false⟩] =
       (match segWaitRun 0 0 5 5 initWaitState [⟨1 / 2, 3, 3, false, false⟩] with
        | some (_, _, b) => b
        | none => false)) ∧
     (∃ st o, segWaitRun 0 0 5 5 initWaitState [⟨1 / 2, 3, 3, false, false⟩] =
          some (st, o, true) ∧
        segStep (0 : Int) (0 : Int) (5 : ℚ) st o = .done true ∧
        (((|o.x - (0 : Int)| : ℚ) ≤ 5 ∧ (|o.y - (0 : Int)| : ℚ) ≤ 5) ∨
         ((|o.x - (0 : Int)| : ℚ) ≤ widerTolerance 5 (st.stableCount + 1) ∧
          (|o.y - (0 : Int)| : ℚ) ≤ widerTolerance 5 (st.stableCount + 1) ∧
          2 ≤ st.stableCount + 1) ∨
         (5 ≤ st.stableCount + 1 ∧ o.xRun = false ∧ o.yRun = false))) ∧
     (∀ c c' : Nat, c ≤ c' → widerTolerance 5 c ≤ widerTolerance 5 c')) :=
  ⟨by norm_num, by norm_num [segWait, segStep, initWaitState],
   segWait_success_characterization 0 0 5 5 [⟨1 / 2, 3, 3, false, false⟩]
     (by norm_num) (by norm_num [segWait, segStep, initWaitState])⟩

/-- Counterexample to claim C2: the claim computes the segment count with
`round`; the code truncates with `int()` (line 537).  For the diagonal move
(0,0) to (41,42), `distance = sqrt(3445) = 58.69...`, and
`58.69 / 20 = 2.93`: the claim gives `max(2, round(2.93)) = 3` segments,
the code `max(2, int(2.93)) = 2`. -/
theorem moveTo_segmentCount_round_counterexample :
    segmentCount 41 42 = 2 ∧
    max 2 (round (Real.sqrt ((41 : ℝ) ^ 2 + (42 : ℝ) ^ 2) / 20)) = (3 : ℤ) := by
  constructor
  · rw [segmentCount, segmentSizeFor]
    norm_num
  · have h345 : ((41 : ℝ) ^ 2 + (42 : ℝ) ^ 2) = 3445 := by norm_num
    have h1 : (50 : ℝ) ≤ Real.sqrt 3445 :=
      (Real.le_sqrt (by norm_num) (by norm_num)).mpr (by norm_num)
    have h2 : Real.sqrt 3445 < 70 := (Real.sqrt_lt' (by norm_num)).mpr (by norm_num)
    have h3 : round (Real.sqrt 3445 / 20) = (3 : ℤ) := by
      rw [round_eq, Int.floor_eq_iff]
      constructor
      · push_cast
        linarith
      · push_cast
        linarith
    rw [h345, h3]
    norm_num

/-- Helper: when the cached position re-read after each segment stays at
the move's starting point, the waypoint recursion produces the truncated
linear interpolations anchored at the start. -/
theorem segmentTargetsGo_const (c0x c0y x y : Int) (n : Nat) :
    ∀ (l : List Nat) (m : Nat), l.length ≤ m →
      segmentTargetsGo c0x c0y x y n l (c0x, c0y) (List.replicate m (c0x, c0y)) =
        l.map (fun i =>
          ((if i = n - 1 then x else segmentTarget c0x x c0x i n),
           (if i = n - 1 then y else segmentTarget c0y y c0y i n))) := by
  intro l
  induction l with
  | nil => intro m _; rfl
  | cons i rest ih =>
    intro m hlen
    cases m with
    | zero => simp at hlen
    | succ m' =>
      simp only [segmentTargetsGo, List.replicate_succ, List.headD_cons, List.tail_cons,
        List.map_cons]
      rw [ih m' (by simpa using hlen)]

/-- Claim C2 (amended): for a move where either axis displacement exceeds
40 steps, the segment count is `max(2, ⌊distance / segment_length⌋)` —
truncation, not rounding — with distance the Euclidean displacement and
segment length 20 when both axes are displaced, 30 otherwise; when the
cached position re-read after each segment stays at the start, the
waypoints are the truncated linear interpolations of the path, and the
final waypoint is exactly the requested coordinate. -/
theorem moveTo_segmentation_amended (cx cy x y : Int)
    (_h : 40 < (x - cx).natAbs ∨ 40 < (y - cy).natAbs) :
    segmentCount (x - cx).natAbs (y - cy).natAbs =
      max 2 (⌊Real.sqrt (((x - cx).natAbs : ℝ) ^ 2 + ((y - cy).natAbs : ℝ) ^ 2) /
              ((segmentSizeFor (x - cx).natAbs (y - cy).natAbs : ℕ) : ℝ)⌋₊) ∧
    segmentTargets cx cy x y
        (List.replicate (segmentCount (x - cx).natAbs (y - cy).natAbs) (cx, cy)) =
      (List.range (segmentCount (x - cx).natAbs (y - cy).natAbs)).map
        (fun i =>
          ((if i = segmentCount (x - cx).natAbs (y - cy).natAbs - 1 then x
            else segmentTarget cx x cx i (segmentCount (x - cx).natAbs (y - cy).natAbs)),
           (if i = segmentCount (x - cx).natAbs (y - cy).natAbs - 1 then y
            else segmentTarget cy y cy i (segmentCount (x - cx).natAbs (y - cy).natAbs)))) ∧
    (segmentTargets cx cy x y
        (List.replicate (segmentCount (x - cx).natAbs (y - cy).natAbs) (cx, cy))).getLast? =
      some (x, y) := by
  have hcount : segmentCount (x - cx).natAbs (y - cy).natAbs =
      max 2 (⌊Real.sqrt (((x - cx).natAbs : ℝ) ^ 2 + ((y - cy).natAbs : ℝ) ^ 2) /
              ((segmentSizeFor (x - cx).natAbs (y - cy).natAbs : ℕ) : ℝ)⌋₊) := by
    have hcast : (((x - cx).natAbs : ℝ) ^ 2 + ((y - cy).natAbs : ℝ) ^ 2) =
        (((x - cx).natAbs ^ 2 + (y - cy).natAbs ^ 2 : ℕ) : ℝ) := by
      push_cast
      ring
    rw [hcast, Nat.floor_div_nat, Real.nat_floor_real_sqrt_eq_nat_sqrt, segmentCount]
  have htargets : segmentTargets cx cy x y
      (List.replicate (segmentCount (x - cx).natAbs (y - cy).natAbs) (cx, cy)) =
      (List.range (segmentCount (x - cx).natAbs (y - cy).natAbs)).map
        (fun i =>
          ((if i = segmentCount (x - cx).natAbs (y - cy).natAbs - 1 then x
            else segmentTarget cx x cx i (segmentCount (x - cx).natAbs (y - cy).natAbs)),
           (if i = segmentCount (x - cx).natAbs (y - cy).natAbs - 1 then y
            else segmentTarget cy y cy i (segmentCount (x - cx).natAbs (y - cy).natAbs)))) := by
    rw [segmentTargets]
    exact segmentTargetsGo_const cx cy x y _ (List.range _) _ (by simp)
  have hpos : 0 < segmentCount (x - cx).natAbs (y - cy).natAbs :=
    Nat.lt_of_lt_of_le (by norm_num) (Nat.le_max_left 2 _)
  obtain ⟨m, hm⟩ := Nat.exists_eq_succ_of_ne_zero (Nat.pos_iff_ne_zero.mp hpos)
  refine ⟨hcount, htargets, ?_⟩
  rw [htargets, hm, List.range_succ, List.map_append]
  simp [hm]

/-- Witness for the amended C2 at the diagonal move (0,0) to (41,42). -/
theorem moveTo_segmentation_amended_witness :
    (40 < ((41 : Int) - 0).natAbs ∨ 40 < ((42 : Int) - 0).natAbs) ∧
    (segmentTargets 0 0 41 42
        (List.replicate (segmentCount ((41 : Int) - 0).natAbs ((42 : Int) - 0).natAbs)
          (0, 0))).getLast? = some (41, 42) :=
  ⟨Or.inl (by norm_num),
   (moveTo_segmentation_amended 0 0 41 42 (Or.inl (by norm_num))).2.2⟩

end HyperMicro
